import Mathlib

/-!
Shallow embedding of the automatic cat feeder controller
(`src/final_proj.ino`): the RFID whitelist lookup, the three FreeRTOS
tasks (reset feeder, servo motor, adjust interval) modelled as pure
cycle functions over an explicit shared state, and theorems about them.
-/

namespace CatFeeder

/-- `#define MAX_USERS 10` -/
def MAX_USERS : Nat := 10

/-- `#define UID_SIZE 4` -/
def UID_SIZE : Nat := 4

/-- Arduino `LOW` digital level. -/
def LOW : Nat := 0

/-- Arduino `HIGH` digital level. -/
def HIGH : Nat := 1

/-- The EEPROM contents: a byte for each address, as read by
`EEPROM.read(addr)`. -/
def Eeprom : Type := Nat → Nat

/-- A tag UID, indexed by byte position as `uid[j]`. -/
def Uid : Type := Nat → Nat

/-- Inner loop of `isRecognized` for slot `i`: `match` stays true iff
`EEPROM.read(i * UID_SIZE + j) == uid[j]` for every `j < UID_SIZE`
(the `break` on a mismatch is captured by `List.all`). -/
def slotMatches (eeprom : Eeprom) (uid : Uid) (i : Nat) : Bool :=
  (List.range UID_SIZE).all (fun j => eeprom (i * UID_SIZE + j) == uid j)

/-- `isRecognized` (final_proj.ino lines 242-254): scans slots
`i = 0 .. MAX_USERS-1` in order and returns true on the first slot whose
`UID_SIZE` bytes all equal the tag's bytes (`return true` inside the loop
is captured by `List.any`); returns false if no slot matches. -/
def isRecognized (eeprom : Eeprom) (uid : Uid) : Bool :=
  (List.range MAX_USERS).any (fun i => slotMatches eeprom uid i)

/-- The empty-slot test used by `loadUIDsFromEEPROM` (and the removed
`saveUIDToEEPROM`): a slot is empty iff all of its bytes are the
sentinel `0xFF`. -/
def slotEmpty (eeprom : Eeprom) (i : Nat) : Bool :=
  (List.range UID_SIZE).all (fun j => eeprom (i * UID_SIZE + j) == 0xFF)

/-- Whitelist membership as the spec's words describe it (for comparison
with `isRecognized`): some populated entry (a slot with at least one
byte different from the sentinel `0xFF`) matches the UID byte-for-byte. -/
def recognizedBySpec (eeprom : Eeprom) (uid : Uid) : Bool :=
  (List.range MAX_USERS).any
    (fun i => !slotEmpty eeprom i && slotMatches eeprom uid i)

/-- The mutable globals shared by the three tasks:
`beenFed`, `interval` (a C++ `int`, so it can go negative),
`oldIncrVal`, `oldDecrVal` (stored digital levels) and the servo
position variable `pos`. -/
structure SysState where
  beenFed : Bool
  interval : Int
  oldIncrVal : Nat
  oldDecrVal : Nat
  pos : Int
  deriving DecidableEq, Repr

/-- The initial values of the globals
(`beenFed = false`, `interval = 5`, `oldIncrVal = oldDecrVal = LOW`,
`pos = 0`). -/
def initState : SysState :=
  ⟨false, 5, LOW, LOW, 0⟩

/-- Observable side effects a task cycle performs, in order. -/
inductive Event where
  | servoWrite (p : Int)
  | delayMs (ms : Nat)
  | serialOut (s : String)
  | lcdOut (s : String)
  | lcdClear
  deriving DecidableEq, Repr

/-- One iteration of the `resetFeederTask` loop (lines 112-124), given the
RTC reading `(minute, second)`: if `minute % interval == 0 && second == 0`
then `beenFed` is set to false and "Ready to Feed" is printed; the cycle
always ends with `vTaskDelay(100)`. -/
def resetCycle (minute second : Nat) (s : SysState) :
    SysState × List Event :=
  if (minute : Int) % s.interval == 0 && second == 0 then
    ({ s with beenFed := false },
     [Event.serialOut "Ready to Feed", Event.delayMs 100])
  else
    (s, [Event.delayMs 100])

/-- What the RFID reader reports in one poll:
`PICC_IsNewCardPresent()`, `PICC_ReadCardSerial()`, and the bytes of
`rfid.uid.uidByte`. -/
structure ServoInput where
  newCardPresent : Bool
  readCardSerial : Bool
  uid : Uid

/-- The dispense actuation of lines 141-149: the first `for` loop writes
positions `0, 1, ..., 45` with `vTaskDelay(100)` after each write, the
second writes `45, 44, ..., 0` likewise. -/
def dispenseTrace : List Event :=
  ((List.range 46).map
    (fun p => [Event.servoWrite (p : Int), Event.delayMs 100])).flatten
  ++ ((List.range 46).reverse.map
    (fun p => [Event.servoWrite (p : Int), Event.delayMs 100])).flatten

/-- One iteration of the `servoMotorTask` loop (lines 131-157).
If no new card is present or the serial read fails, the cycle is just
`vTaskDelay(50); continue`.  Otherwise, if the UID is recognized and
`beenFed` is false, "Granted" is printed, the dispense sweep runs
(leaving the global `pos` at `-1`, the exit value of the second loop)
and `beenFed` is set to true.  Every non-`continue` path ends with
`vTaskDelay(1000); lcd.clear()`. -/
def servoCycle (eeprom : Eeprom) (inp : ServoInput) (s : SysState) :
    SysState × List Event :=
  if !inp.newCardPresent || !inp.readCardSerial then
    (s, [Event.delayMs 50])
  else
    let r :=
      if isRecognized eeprom inp.uid then
        if !s.beenFed then
          ({ s with beenFed := true, pos := -1 },
           Event.serialOut "Granted" :: dispenseTrace)
        else (s, [])
      else (s, [])
    (r.1, r.2 ++ [Event.delayMs 1000, Event.lcdClear])

/-- The increment-button block of `adjustIntervalTask` (lines 170-178):
when the read level differs from `oldIncrVal`, the stored level is
updated, and if the new level is `LOW` (active-low press) the interval
is incremented and printed. -/
def incrBlock (incrSignal : Nat) (s : SysState) : SysState × List Event :=
  if incrSignal != s.oldIncrVal then
    if incrSignal == LOW then
      ({ s with interval := s.interval + 1, oldIncrVal := incrSignal },
       [Event.serialOut (toString (s.interval + 1)),
        Event.lcdOut (toString (s.interval + 1)), Event.lcdOut " minutes"])
    else ({ s with oldIncrVal := incrSignal }, [])
  else (s, [])

/-- The decrement-button block of `adjustIntervalTask` (lines 180-188):
same as `incrBlock` with `oldDecrVal` and `interval - 1`. -/
def decrBlock (decrSignal : Nat) (s : SysState) : SysState × List Event :=
  if decrSignal != s.oldDecrVal then
    if decrSignal == LOW then
      ({ s with interval := s.interval - 1, oldDecrVal := decrSignal },
       [Event.serialOut (toString (s.interval - 1)),
        Event.lcdOut (toString (s.interval - 1)), Event.lcdOut " minutes"])
    else ({ s with oldDecrVal := decrSignal }, [])
  else (s, [])

/-- One iteration of the `adjustIntervalTask` loop (lines 165-196), given
the two `digitalRead` results: the increment block, then the decrement
block, then `vTaskDelay(1000); lcd.clear()`. -/
def adjustCycle (incrSignal decrSignal : Nat) (s : SysState) :
    SysState × List Event :=
  let r1 := incrBlock incrSignal s
  let r2 := decrBlock decrSignal r1.1
  (r2.1, r1.2 ++ r2.2 ++ [Event.delayMs 1000, Event.lcdClear])

/-- One scheduler step: which task runs and what its inputs are. -/
inductive Label where
  | clock (minute second : Nat)
  | servo (inp : ServoInput)
  | buttons (incrSignal decrSignal : Nat)

/-- The interleaved system: one cycle of the labelled task. -/
def sysStep (eeprom : Eeprom) (l : Label) (s : SysState) :
    SysState × List Event :=
  match l with
  | Label.clock m sec => resetCycle m sec s
  | Label.servo inp => servoCycle eeprom inp s
  | Label.buttons i d => adjustCycle i d s

/-- Run a sequence of labelled task cycles, concatenating their events. -/
def sysRun (eeprom : Eeprom) (s : SysState) :
    List Label → SysState × List Event
  | [] => (s, [])
  | l :: ls =>
    ((sysRun eeprom (sysStep eeprom l s).1 ls).1,
     (sysStep eeprom l s).2 ++ (sysRun eeprom (sysStep eeprom l s).1 ls).2)

/-- Run a sequence of servo-task cycles only. -/
def servoRun (eeprom : Eeprom) (s : SysState) :
    List ServoInput → SysState × List Event
  | [] => (s, [])
  | inp :: rest =>
    ((servoRun eeprom (servoCycle eeprom inp s).1 rest).1,
     (servoCycle eeprom inp s).2 ++
       (servoRun eeprom (servoCycle eeprom inp s).1 rest).2)

/-- Run a sequence of button-task cycles only. -/
def adjustRun (s : SysState) :
    List (Nat × Nat) → SysState × List Event
  | [] => (s, [])
  | sig :: rest =>
    ((adjustRun (adjustCycle sig.1 sig.2 s).1 rest).1,
     (adjustCycle sig.1 sig.2 s).2 ++
       (adjustRun (adjustCycle sig.1 sig.2 s).1 rest).2)

/-- True iff the trace contains an actuator command (`myservo.write`). -/
def hasActuation (evs : List Event) : Bool :=
  evs.any (fun e => match e with | Event.servoWrite _ => true | _ => false)

/-! ### Concrete fixtures used by witnesses and counterexamples -/

/-- EEPROM contents with every byte `0xFF`: all ten slots empty. -/
def allFF : Eeprom := fun _ => 0xFF

/-- EEPROM whose first slot holds `AA BB CC DD` and whose other slots
are empty (all `0xFF`), as in Scenario B of the spec. -/
def wlB : Eeprom := fun a =>
  if a == 0 then 0xAA else if a == 1 then 0xBB else
  if a == 2 then 0xCC else if a == 3 then 0xDD else 0xFF

/-- The tag UID `AA BB CC DD`. -/
def uidB : Uid := fun j =>
  if j == 0 then 0xAA else if j == 1 then 0xBB else
  if j == 2 then 0xCC else if j == 3 then 0xDD else 0

/-- The tag UID `01 02 03 04` (Scenario D, not whitelisted). -/
def uidD : Uid := fun j =>
  if j == 0 then 0x01 else if j == 1 then 0x02 else
  if j == 2 then 0x03 else if j == 3 then 0x04 else 0

/-- The all-`0xFF` tag UID (the empty-slot sentinel pattern). -/
def uidFF : Uid := fun _ => 0xFF

/-- The initial globals just after a successful dispense
(`beenFed` already true). -/
def fedState : SysState :=
  { initState with beenFed := true }

/-- The globals once both stored button levels have settled at the
released (pull-up `HIGH`) level. -/
def releasedState : SysState :=
  { initState with oldIncrVal := HIGH, oldDecrVal := HIGH }

/-- Button inputs realising five release/press pairs on the decrement
button while the increment line stays at its stored initial level. -/
def decPressSeq : List (Nat × Nat) :=
  [(LOW, HIGH), (LOW, LOW), (LOW, HIGH), (LOW, LOW), (LOW, HIGH),
   (LOW, LOW), (LOW, HIGH), (LOW, LOW), (LOW, HIGH), (LOW, LOW)]

/-! ### Whitelist lookup lemmas -/

/-- `slotMatches` holds iff every byte of slot `i` equals the UID byte. -/
theorem slotMatches_iff (eeprom : Eeprom) (uid : Uid) (i : Nat) :
    slotMatches eeprom uid i = true ↔
      ∀ j < UID_SIZE, eeprom (i * UID_SIZE + j) = uid j := by
  simp [slotMatches, List.mem_range]

/-- `isRecognized` holds iff some slot among the `MAX_USERS` matches. -/
theorem isRecognized_iff (eeprom : Eeprom) (uid : Uid) :
    isRecognized eeprom uid = true ↔
      ∃ i < MAX_USERS, slotMatches eeprom uid i = true := by
  simp [isRecognized, List.mem_range]

/-- `slotEmpty` holds iff every byte of slot `i` is the sentinel. -/
theorem slotEmpty_iff (eeprom : Eeprom) (i : Nat) :
    slotEmpty eeprom i = true ↔
      ∀ j < UID_SIZE, eeprom (i * UID_SIZE + j) = 0xFF := by
  simp [slotEmpty, List.mem_range]

/-- **C1** (amended): `isRecognized` returns true iff some slot —
populated **or empty** — matches the UID byte-for-byte across all
`UID_SIZE` bytes; the scan does not skip empty slots, and an empty slot
(all bytes `0xFF`) matches exactly the all-`0xFF` UID. -/
theorem C1_recognized_any_slot (eeprom : Eeprom) (uid : Uid) :
    (isRecognized eeprom uid = true ↔
      ∃ i < MAX_USERS, ∀ j < UID_SIZE, eeprom (i * UID_SIZE + j) = uid j) ∧
    (∀ i, slotEmpty eeprom i = true →
      (slotMatches eeprom uid i = true ↔ ∀ j < UID_SIZE, uid j = 0xFF)) := by
  constructor
  · rw [isRecognized_iff]
    exact exists_congr fun i =>
      and_congr_right fun _ => slotMatches_iff eeprom uid i
  · intro i hemp
    rw [slotEmpty_iff] at hemp
    rw [slotMatches_iff]
    constructor
    · exact fun h j hj => (h j hj).symm.trans (hemp j hj)
    · exact fun h j hj => (hemp j hj).trans (h j hj).symm

/-- **C1** witness: slot 1 of the Scenario-B EEPROM is empty, and by the
amended claim it matches exactly the all-`0xFF` UID. -/
theorem C1_witness :
    slotEmpty wlB 1 = true ∧
    (slotMatches wlB uidFF 1 = true ↔ ∀ j < UID_SIZE, uidFF j = 0xFF) :=
  ⟨by decide, (C1_recognized_any_slot wlB uidFF).2 1 (by decide)⟩

/-- **C1** counterexample: with all slots empty (every EEPROM byte
`0xFF`) and the all-`0xFF` UID, `isRecognized` returns true although no
populated entry matches — every slot is empty — refuting the claim that
empty slots never produce a match. -/
theorem C1_counterexample :
    isRecognized allFF uidFF = true ∧
    recognizedBySpec allFF uidFF = false ∧
    (∀ i < MAX_USERS, slotEmpty allFF i = true) := by
  refine ⟨by decide, by decide, by decide⟩

/-- **C10**: whenever some slot `i < MAX_USERS` is empty (all bytes
`0xFF`), `isRecognized` accepts the all-`0xFF` UID: the linear scan
compares against every slot without skipping empty ones, so the
sentinel pattern itself is recognized. -/
theorem C10_sentinel_accepted (eeprom : Eeprom) (i : Nat)
    (hi : i < MAX_USERS) (hempty : slotEmpty eeprom i = true) :
    isRecognized eeprom uidFF = true := by
  rw [isRecognized_iff]
  refine ⟨i, hi, ?_⟩
  rw [slotMatches_iff]
  intro j hj
  exact (slotEmpty_iff eeprom i).mp hempty j hj

/-- **C10** witness: the all-empty EEPROM has empty slot 0 and accepts
the all-`0xFF` UID. -/
theorem C10_witness :
    0 < MAX_USERS ∧ slotEmpty allFF 0 = true ∧
    isRecognized allFF uidFF = true :=
  ⟨by decide, by decide, C10_sentinel_accepted allFF 0 (by decide) (by decide)⟩

/-! ### Servo task lemmas -/

/-- `hasActuation` distributes over trace concatenation. -/
theorem hasActuation_append (l l' : List Event) :
    hasActuation (l ++ l') = (hasActuation l || hasActuation l') := by
  simp [hasActuation]

/-- A servo cycle in a state with `beenFed = true` leaves the state
unchanged and issues no actuator command. -/
theorem servoCycle_of_fed (eeprom : Eeprom) (inp : ServoInput)
    (s : SysState) (h : s.beenFed = true) :
    (servoCycle eeprom inp s).1 = s ∧
    hasActuation (servoCycle eeprom inp s).2 = false := by
  cases hp : inp.newCardPresent <;> cases hr : inp.readCardSerial <;>
    cases hrec : isRecognized eeprom inp.uid <;>
      simp [servoCycle, hp, hr, hrec, h, hasActuation]

/-- **C2**: when the reader reports a new card with a successful serial
read, the UID is recognized and `beenFed` is false, the cycle's trace is
exactly "Granted", then writes of positions `0..45` each followed by a
100ms delay, then writes of `45..0` each followed by a 100ms delay, then
the end-of-cycle delay and LCD clear — and `beenFed` becomes true. -/
theorem C2_dispense_profile (eeprom : Eeprom) (inp : ServoInput)
    (s : SysState)
    (hpresent : inp.newCardPresent = true)
    (hread : inp.readCardSerial = true)
    (hrec : isRecognized eeprom inp.uid = true)
    (hfed : s.beenFed = false) :
    (servoCycle eeprom inp s).2 =
      Event.serialOut "Granted" ::
        (((List.range 46).map
            (fun p => [Event.servoWrite (p : Int), Event.delayMs 100])).flatten
          ++ ((List.range 46).reverse.map
            (fun p => [Event.servoWrite (p : Int), Event.delayMs 100])).flatten
          ++ [Event.delayMs 1000, Event.lcdClear]) ∧
    (servoCycle eeprom inp s).1.beenFed = true := by
  simp [servoCycle, hpresent, hread, hrec, hfed, dispenseTrace]

/-- **C2** witness: Scenario B — whitelist slot `AA BB CC DD`, that tag
presented, fresh state. -/
theorem C2_witness :
    (⟨true, true, uidB⟩ : ServoInput).newCardPresent = true ∧
    (⟨true, true, uidB⟩ : ServoInput).readCardSerial = true ∧
    isRecognized wlB uidB = true ∧ initState.beenFed = false ∧
    ((servoCycle wlB ⟨true, true, uidB⟩ initState).2 =
      Event.serialOut "Granted" ::
        (((List.range 46).map
            (fun p => [Event.servoWrite (p : Int), Event.delayMs 100])).flatten
          ++ ((List.range 46).reverse.map
            (fun p => [Event.servoWrite (p : Int), Event.delayMs 100])).flatten
          ++ [Event.delayMs 1000, Event.lcdClear]) ∧
     (servoCycle wlB ⟨true, true, uidB⟩ initState).1.beenFed = true) :=
  ⟨rfl, rfl, by decide, rfl,
   C2_dispense_profile wlB ⟨true, true, uidB⟩ initState rfl rfl
     (by decide) rfl⟩

/-- **C3**: once `beenFed` is true, any sequence of servo-task cycles —
whatever the reader reports, recognized tags included — issues no
actuator command and leaves `beenFed` true. -/
theorem C3_idempotent_window (eeprom : Eeprom) (s : SysState)
    (inps : List ServoInput) (h : s.beenFed = true) :
    (servoRun eeprom s inps).1.beenFed = true ∧
    hasActuation (servoRun eeprom s inps).2 = false := by
  induction inps generalizing s with
  | nil => exact ⟨h, rfl⟩
  | cons inp rest ih =>
    obtain ⟨hs, ha⟩ := servoCycle_of_fed eeprom inp s h
    have hb : (servoCycle eeprom inp s).1.beenFed = true := by rw [hs]; exact h
    obtain ⟨ih1, ih2⟩ := ih (servoCycle eeprom inp s).1 hb
    refine ⟨ih1, ?_⟩
    show hasActuation ((servoCycle eeprom inp s).2 ++
      (servoRun eeprom (servoCycle eeprom inp s).1 rest).2) = false
    rw [hasActuation_append, ha, ih2]
    rfl

/-- **C3** witness: after a dispense, two further recognized-tag cycles
change nothing and actuate nothing. -/
theorem C3_witness :
    fedState.beenFed = true ∧
    ((servoRun wlB fedState
        [⟨true, true, uidB⟩, ⟨true, true, uidB⟩]).1.beenFed = true ∧
     hasActuation (servoRun wlB fedState
        [⟨true, true, uidB⟩, ⟨true, true, uidB⟩]).2 = false) :=
  ⟨rfl, C3_idempotent_window wlB fedState
    [⟨true, true, uidB⟩, ⟨true, true, uidB⟩] rfl⟩

/-- **C8**: in a cycle whose UID is not recognized, the whole state is
unchanged — in particular `beenFed` and `interval` keep their values —
and no actuator command is issued. -/
theorem C8_unrecognized_frame (eeprom : Eeprom) (inp : ServoInput)
    (s : SysState) (h : isRecognized eeprom inp.uid = false) :
    (servoCycle eeprom inp s).1 = s ∧
    hasActuation (servoCycle eeprom inp s).2 = false ∧
    (servoCycle eeprom inp s).1.beenFed = s.beenFed ∧
    (servoCycle eeprom inp s).1.interval = s.interval := by
  have h1 : (servoCycle eeprom inp s).1 = s := by
    cases hp : inp.newCardPresent <;> cases hr : inp.readCardSerial <;>
      simp [servoCycle, hp, hr, h]
  have h2 : hasActuation (servoCycle eeprom inp s).2 = false := by
    cases hp : inp.newCardPresent <;> cases hr : inp.readCardSerial <;>
      simp [servoCycle, hp, hr, h, hasActuation]
  exact ⟨h1, h2, by rw [h1], by rw [h1]⟩

/-- **C8** witness: Scenario D — UID `01 02 03 04` is not in the
whitelist; the cycle changes nothing. -/
theorem C8_witness :
    isRecognized wlB uidD = false ∧
    ((servoCycle wlB ⟨true, true, uidD⟩ initState).1 = initState ∧
     hasActuation (servoCycle wlB ⟨true, true, uidD⟩ initState).2 = false ∧
     (servoCycle wlB ⟨true, true, uidD⟩ initState).1.beenFed =
       initState.beenFed ∧
     (servoCycle wlB ⟨true, true, uidD⟩ initState).1.interval =
       initState.interval) :=
  ⟨by decide, C8_unrecognized_frame wlB ⟨true, true, uidD⟩ initState
    (by decide)⟩

/-- **C9**: a partial read (card present, serial read failed) is handled
exactly like no card at all — same resulting state and same trace for
any whitelist and any UID bytes: the state is untouched, no whitelist
lookup can influence the outcome, and the only effect is the 50ms retry
delay. -/
theorem C9_partial_read_no_tag (eeprom eeprom2 : Eeprom) (uid uid2 : Uid)
    (b : Bool) (s : SysState) :
    servoCycle eeprom ⟨true, false, uid⟩ s =
      servoCycle eeprom2 ⟨false, b, uid2⟩ s ∧
    (servoCycle eeprom ⟨true, false, uid⟩ s).1 = s ∧
    (servoCycle eeprom ⟨true, false, uid⟩ s).2 = [Event.delayMs 50] :=
  ⟨rfl, rfl, rfl⟩

/-! ### Clock task lemmas -/

/-- **C4**: for any interval `>= 1`, a reset cycle sets `beenFed` to
false exactly when `minute % interval == 0` and `second == 0`, leaves it
unchanged otherwise, and touches no other global. -/
theorem C4_reset_boundary (minute second : Nat) (s : SysState)
    (_h : 1 ≤ s.interval) :
    (resetCycle minute second s).1.beenFed =
      (if (minute : Int) % s.interval = 0 ∧ second = 0 then false
       else s.beenFed) ∧
    (resetCycle minute second s).1.interval = s.interval ∧
    (resetCycle minute second s).1.oldIncrVal = s.oldIncrVal ∧
    (resetCycle minute second s).1.oldDecrVal = s.oldDecrVal ∧
    (resetCycle minute second s).1.pos = s.pos := by
  by_cases hm : (minute : Int) % s.interval = 0 <;>
    by_cases hs2 : second = 0 <;>
      simp [resetCycle, hm, hs2]

/-- **C4** witness: Scenario A — interval 5, clock at minute 10,
second 0, `beenFed` comes out false. -/
theorem C4_witness :
    1 ≤ initState.interval ∧
    (resetCycle 10 0 initState).1.beenFed = false := by
  refine ⟨by decide, ?_⟩
  have h := (C4_reset_boundary 10 0 initState (by decide)).1
  rw [if_pos] at h
  · exact h
  · exact ⟨by decide, rfl⟩

/-! ### `beenFed` transition lemmas for the interleaved system -/

/-- The increment block never touches `beenFed`, `pos` or
`oldDecrVal`. -/
theorem incrBlock_frame (i : Nat) (s : SysState) :
    (incrBlock i s).1.beenFed = s.beenFed ∧
    (incrBlock i s).1.pos = s.pos ∧
    (incrBlock i s).1.oldDecrVal = s.oldDecrVal := by
  unfold incrBlock
  split
  · split <;> exact ⟨rfl, rfl, rfl⟩
  · exact ⟨rfl, rfl, rfl⟩

/-- The decrement block never touches `beenFed`, `pos` or
`oldIncrVal`. -/
theorem decrBlock_frame (d : Nat) (s : SysState) :
    (decrBlock d s).1.beenFed = s.beenFed ∧
    (decrBlock d s).1.pos = s.pos ∧
    (decrBlock d s).1.oldIncrVal = s.oldIncrVal := by
  unfold decrBlock
  split
  · split <;> exact ⟨rfl, rfl, rfl⟩
  · exact ⟨rfl, rfl, rfl⟩

/-- A button-task cycle never changes `beenFed`. -/
theorem adjustCycle_beenFed (i d : Nat) (s : SysState) :
    (adjustCycle i d s).1.beenFed = s.beenFed := by
  show (decrBlock d (incrBlock i s).1).1.beenFed = s.beenFed
  rw [(decrBlock_frame d (incrBlock i s).1).1, (incrBlock_frame i s).1]

/-- A servo cycle either leaves `beenFed` as it was, or it is a full
dispense: card present, serial read ok, UID recognized, `beenFed` was
false and becomes true, and the trace is "Granted" followed by the
complete sweep. -/
theorem servoCycle_cases (eeprom : Eeprom) (inp : ServoInput)
    (s : SysState) :
    (servoCycle eeprom inp s).1.beenFed = s.beenFed ∨
    (s.beenFed = false ∧ inp.newCardPresent = true ∧
     inp.readCardSerial = true ∧ isRecognized eeprom inp.uid = true ∧
     (servoCycle eeprom inp s).1.beenFed = true ∧
     (servoCycle eeprom inp s).2 =
       Event.serialOut "Granted" ::
         (dispenseTrace ++ [Event.delayMs 1000, Event.lcdClear])) := by
  cases hp : inp.newCardPresent with
  | false => left; simp [servoCycle, hp]
  | true =>
    cases hr : inp.readCardSerial with
    | false => left; simp [servoCycle, hp, hr]
    | true =>
      cases hrec : isRecognized eeprom inp.uid with
      | false => left; simp [servoCycle, hp, hr, hrec]
      | true =>
        cases hf : s.beenFed with
        | true => left; simp [servoCycle, hp, hr, hrec, hf]
        | false =>
          right
          refine ⟨rfl, rfl, rfl, rfl, ?_, ?_⟩ <;>
            simp [servoCycle, hp, hr, hrec, hf]

/-- **C5**: in any single step of the interleaved system, `beenFed`
flips false→true only in a servo step that runs the complete dispense
trace on a present, successfully read, recognized tag, and flips
true→false only in a clock step taken at an interval boundary
(`minute % interval == 0` and `second == 0`); button steps never change
it. -/
theorem C5_beenFed_transitions (eeprom : Eeprom) (l : Label)
    (s : SysState)
    (hch : (sysStep eeprom l s).1.beenFed ≠ s.beenFed) :
    (s.beenFed = false ∧ (sysStep eeprom l s).1.beenFed = true ∧
      ∃ inp, l = Label.servo inp ∧ inp.newCardPresent = true ∧
        inp.readCardSerial = true ∧ isRecognized eeprom inp.uid = true ∧
        (sysStep eeprom l s).2 =
          Event.serialOut "Granted" ::
            (dispenseTrace ++ [Event.delayMs 1000, Event.lcdClear])) ∨
    (s.beenFed = true ∧ (sysStep eeprom l s).1.beenFed = false ∧
      ∃ m sec, l = Label.clock m sec ∧
        (m : Int) % s.interval = 0 ∧ sec = 0) := by
  cases l with
  | clock m sec =>
    right
    by_cases hc : ((m : Int) % s.interval == 0 && (sec == 0)) = true
    · have h1 : (sysStep eeprom (Label.clock m sec) s).1.beenFed = false := by
        show (resetCycle m sec s).1.beenFed = false
        unfold resetCycle
        rw [if_pos hc]
      have h2 : s.beenFed = true := by
        cases hsb : s.beenFed with
        | true => rfl
        | false => exact absurd (h1.trans hsb.symm) hch
      obtain ⟨hm, hs0⟩ : (m : Int) % s.interval = 0 ∧ sec = 0 := by
        simpa using hc
      exact ⟨h2, h1, m, sec, rfl, hm, hs0⟩
    · exfalso
      apply hch
      show (resetCycle m sec s).1.beenFed = s.beenFed
      unfold resetCycle
      rw [if_neg hc]
  | servo inp =>
    rcases servoCycle_cases eeprom inp s with hsame | ⟨hf, hp, hr, hrec, hb, hevs⟩
    · exact absurd hsame hch
    · exact Or.inl ⟨hf, hb, inp, rfl, hp, hr, hrec, hevs⟩
  | buttons i d =>
    exact absurd (adjustCycle_beenFed i d s) hch

/-- **C5** witness: the dispensing servo step from the initial state
flips `beenFed` and the theorem classifies it. -/
theorem C5_witness :
    (sysStep wlB (Label.servo ⟨true, true, uidB⟩) initState).1.beenFed ≠
      initState.beenFed ∧
    ((initState.beenFed = false ∧
      (sysStep wlB (Label.servo ⟨true, true, uidB⟩) initState).1.beenFed
        = true ∧
      ∃ inp, Label.servo (⟨true, true, uidB⟩ : ServoInput) =
          Label.servo inp ∧
        inp.newCardPresent = true ∧ inp.readCardSerial = true ∧
        isRecognized wlB inp.uid = true ∧
        (sysStep wlB (Label.servo ⟨true, true, uidB⟩) initState).2 =
          Event.serialOut "Granted" ::
            (dispenseTrace ++ [Event.delayMs 1000, Event.lcdClear])) ∨
     (initState.beenFed = true ∧
      (sysStep wlB (Label.servo ⟨true, true, uidB⟩) initState).1.beenFed
        = false ∧
      ∃ m sec, Label.servo (⟨true, true, uidB⟩ : ServoInput) =
          Label.clock m sec ∧
        (m : Int) % initState.interval = 0 ∧ sec = 0)) :=
  ⟨by decide,
   C5_beenFed_transitions wlB (Label.servo ⟨true, true, uidB⟩) initState
     (by decide)⟩

/-! ### Button task lemmas -/

/-- When both read levels equal the stored ones, a button cycle changes
no state. -/
theorem adjustCycle_stable (s : SysState) :
    (adjustCycle s.oldIncrVal s.oldDecrVal s).1 = s := by
  show (decrBlock s.oldDecrVal (incrBlock s.oldIncrVal s).1).1 = s
  have h1 : incrBlock s.oldIncrVal s = (s, []) := by
    unfold incrBlock
    simp
  rw [h1]
  unfold decrBlock
  simp

/-- Holding both buttons at their stored levels for any number of polls
changes no state. -/
theorem adjustRun_stable (s : SysState) (n : Nat) :
    (adjustRun s (List.replicate n (s.oldIncrVal, s.oldDecrVal))).1 = s := by
  induction n with
  | zero => rfl
  | succ k ih =>
    show (adjustRun
      (adjustCycle s.oldIncrVal s.oldDecrVal s).1
      (List.replicate k (s.oldIncrVal, s.oldDecrVal))).1 = s
    rw [adjustCycle_stable]
    exact ih

/-- A Released→Pressed edge on the increment button (stored level
`HIGH`, read level `LOW`) with the decrement line steady adds 1 to the
interval and stores the new level. -/
theorem adjustCycle_incr_press (s : SysState)
    (hincr : s.oldIncrVal = HIGH) (hdecr : s.oldDecrVal = HIGH) :
    (adjustCycle LOW HIGH s).1 =
      { s with interval := s.interval + 1, oldIncrVal := LOW } := by
  show (decrBlock HIGH (incrBlock LOW s).1).1 = _
  have h1 : (incrBlock LOW s).1 =
      { s with interval := s.interval + 1, oldIncrVal := LOW } := by
    unfold incrBlock
    rw [hincr]
    simp [LOW, HIGH]
  rw [h1]
  unfold decrBlock
  simp [hdecr, LOW, HIGH]

/-- A Released→Pressed edge on the decrement button with the increment
line steady subtracts 1 from the interval and stores the new level. -/
theorem adjustCycle_decr_press (s : SysState)
    (hincr : s.oldIncrVal = HIGH) (hdecr : s.oldDecrVal = HIGH) :
    (adjustCycle HIGH LOW s).1 =
      { s with interval := s.interval - 1, oldDecrVal := LOW } := by
  show (decrBlock LOW (incrBlock HIGH s).1).1 = _
  have h1 : (incrBlock HIGH s).1 = s := by
    unfold incrBlock
    rw [hincr]
    simp
  rw [h1]
  unfold decrBlock
  rw [hdecr]
  simp [LOW, HIGH]

/-- **C6**: from stored levels Released (`HIGH`) on both buttons, one
Released→Pressed edge of the increment button followed by `n` polls
holding it pressed yields exactly `interval + 1`; symmetrically one
press edge of the decrement button held for `n` polls yields exactly
`interval - 1`. -/
theorem C6_press_edge_once (s : SysState) (n : Nat)
    (hincr : s.oldIncrVal = HIGH) (hdecr : s.oldDecrVal = HIGH) :
    (adjustRun s ((LOW, HIGH) :: List.replicate n (LOW, HIGH))).1.interval
      = s.interval + 1 ∧
    (adjustRun s ((HIGH, LOW) :: List.replicate n (HIGH, LOW))).1.interval
      = s.interval - 1 := by
  constructor
  · show (adjustRun (adjustCycle LOW HIGH s).1
      (List.replicate n (LOW, HIGH))).1.interval = s.interval + 1
    rw [adjustCycle_incr_press s hincr hdecr, hdecr]
    have hrun := adjustRun_stable
      { s with interval := s.interval + 1, oldIncrVal := LOW,
               oldDecrVal := HIGH } n
    simp only at hrun
    rw [hrun]
  · show (adjustRun (adjustCycle HIGH LOW s).1
      (List.replicate n (HIGH, LOW))).1.interval = s.interval - 1
    rw [adjustCycle_decr_press s hincr hdecr, hincr]
    have hrun := adjustRun_stable
      { s with interval := s.interval - 1, oldIncrVal := HIGH,
               oldDecrVal := LOW } n
    simp only at hrun
    rw [hrun]

/-- **C6** witness: Scenario E from the released-released state — one
press edge plus five held polls gives exactly +1 (and -1 for the
decrement button). -/
theorem C6_witness :
    releasedState.oldIncrVal = HIGH ∧ releasedState.oldDecrVal = HIGH ∧
    ((adjustRun releasedState
        ((LOW, HIGH) :: List.replicate 5 (LOW, HIGH))).1.interval
      = releasedState.interval + 1 ∧
     (adjustRun releasedState
        ((HIGH, LOW) :: List.replicate 5 (HIGH, LOW))).1.interval
      = releasedState.interval - 1) :=
  ⟨rfl, rfl, C6_press_edge_once releasedState 5 rfl rfl⟩

/-- **C7**: the decrement path enforces no floor: from the initial state
(interval 5), five release/press pairs on the decrement button drive the
interval to 0 — violating the `interval >= 1` guard the Clock Monitor's
`minute % interval` check needs — and one more pair drives it to -1. -/
theorem C7_no_lower_bound :
    (adjustRun initState decPressSeq).1.interval = 0 ∧
    ¬ 1 ≤ (adjustRun initState decPressSeq).1.interval ∧
    (adjustRun initState
      (decPressSeq ++ [(LOW, HIGH), (LOW, LOW)])).1.interval = -1 := by
  refine ⟨by decide, by decide, by decide⟩

end CatFeeder
